import Mathlib

/-!
Shallow embedding of the client-side scripts of the college recruitment
website (src/js/script.js and its near-duplicate variant).  Browser state
touched by each handler is made explicit as Lean structures; timer callbacks
(`setInterval` / `setTimeout`) become explicit step functions and pending-task
queues; `IntersectionObserver` callbacks become step functions over an
"observed / class present" state driven by a list of visibility events.
JS numbers occurring in the counter animation are modelled as exact rationals.
-/

namespace CollegeSite

/-! ### Number formatting

`Number.prototype.toLocaleString()` on a nonnegative integer in the default
en-US locale: decimal digits grouped in threes, separated by commas. -/

/-- Insert a comma before every fourth, seventh, … digit of a reversed
(least-significant-first) digit list. -/
def thousandsGroupRev : List Char → ℕ → List Char
  | [], _ => []
  | c :: rest, 3 => ',' :: c :: thousandsGroupRev rest 1
  | c :: rest, k => c :: thousandsGroupRev rest (k + 1)

/-- The value of `n.toLocaleString()` for a nonnegative integer `n`: thousands-separated
decimal rendering. -/
def toLocaleString (n : ℕ) : String :=
  String.mk ((thousandsGroupRev (Nat.repr n).data.reverse 0).reverse)

example : toLocaleString 150 = "150" := by decide
example : toLocaleString 500000 = "500,000" := by decide
example : toLocaleString 0 = "0" := by decide
example : toLocaleString 71000 = "71,000" := by decide

/-! ### Counter animation (`animateCounter`, src/js/script.js lines 42-59)

```js
function animateCounter(element, target, suffix = '') {
    element.classList.add('counting');
    let current = 0;
    const increment = target / 50;
    const duration = 2000;
    const stepTime = duration / 50;
    const timer = setInterval(() => {
        current += increment;
        if (current >= target) { current = target; clearInterval(timer); }
        const formattedNumber = Math.floor(current).toLocaleString();
        element.textContent = formattedNumber + suffix;
    }, stepTime);
}
```

The interval callback is `animateCounterTick`; `animateCounterRun k` is the
element state after `k` interval ticks.  `finished = true` models
`clearInterval` having been called (no further tick changes the state). -/

/-- Total animation duration in milliseconds (`const duration = 2000`). -/
def counterDuration : ℕ := 2000

/-- Milliseconds between interval ticks (`const stepTime = duration / 50`). -/
def counterStepTime : ℕ := counterDuration / 50

/-- State of one animating counter element: the `current` accumulator, the
element's `textContent`, and whether `clearInterval` has run. -/
structure CounterState where
  current : ℚ
  display : String
  finished : Bool
  deriving Repr, DecidableEq

/-- One `setInterval` callback invocation of `animateCounter`.  After
`clearInterval` the callback no longer fires, so a finished state is fixed. -/
def animateCounterTick (target : ℚ) (suffix : String) (s : CounterState) :
    CounterState :=
  if s.finished then s
  else
    let next := s.current + target / 50
    if target ≤ next then
      { current := target
        display := toLocaleString (Int.toNat ⌊(target : ℚ)⌋) ++ suffix
        finished := true }
    else
      { current := next
        display := toLocaleString (Int.toNat ⌊next⌋) ++ suffix
        finished := false }

/-- Counter element state after `k` interval ticks; `init` is the element's
text content before the animation starts (whatever the markup contained). -/
def animateCounterRun (target : ℚ) (suffix : String) (init : String) :
    ℕ → CounterState
  | 0 => { current := 0, display := init, finished := false }
  | k + 1 => animateCounterTick target suffix (animateCounterRun target suffix init k)

/-- A tick on a state where `clearInterval` has not yet run: add the
increment, clamp-and-finish when the target is reached, display the floor. -/
theorem animateCounterTick_not_finished (target : ℚ) (suffix : String)
    (s : CounterState) (hs : s.finished = false) :
    animateCounterTick target suffix s =
      if target ≤ s.current + target / 50 then
        { current := target
          display := toLocaleString (Int.toNat ⌊(target : ℚ)⌋) ++ suffix
          finished := true }
      else
        { current := s.current + target / 50
          display := toLocaleString (Int.toNat ⌊s.current + target / 50⌋) ++ suffix
          finished := false } := by
  simp [animateCounterTick, hs]

/-- A finished counter state is a fixed point of the tick function
(`clearInterval` has removed the callback). -/
theorem animateCounterTick_finished (target : ℚ) (suffix : String)
    (s : CounterState) (hs : s.finished = true) :
    animateCounterTick target suffix s = s := by
  simp [animateCounterTick, hs]

/-- Characterization of the first 50 ticks for a positive integer target:
the accumulator is exactly `k·T/50`, the interval is cleared exactly at tick
50, and each tick displays the floored accumulator plus the suffix. -/
theorem animateCounterRun_char (T : ℕ) (hT : 0 < T) (suffix init : String) :
    ∀ k : ℕ, k ≤ 50 →
      (animateCounterRun (T : ℚ) suffix init k).current = (k : ℚ) * T / 50 ∧
      ((animateCounterRun (T : ℚ) suffix init k).finished = true ↔ k = 50) ∧
      (1 ≤ k → (animateCounterRun (T : ℚ) suffix init k).display =
          toLocaleString (Int.toNat ⌊(k : ℚ) * T / 50⌋) ++ suffix) := by
  have hTQ : (0 : ℚ) < T := by exact_mod_cast hT
  have key : ∀ m : ℕ, ((T : ℚ) ≤ (m : ℚ) * T / 50 ↔ 50 ≤ m) := by
    intro m
    rw [le_div_iff₀ (by norm_num : (0 : ℚ) < 50), mul_comm (m : ℚ) (T : ℚ),
      mul_le_mul_left hTQ]
    exact_mod_cast Iff.rfl
  intro k
  induction k with
  | zero =>
    intro _
    refine ⟨by simp [animateCounterRun], by simp [animateCounterRun], by omega⟩
  | succ k ih =>
    intro hk
    obtain ⟨hcur, hfin, _⟩ := ih (by omega)
    have hnotfin : (animateCounterRun (T : ℚ) suffix init k).finished = false := by
      rcases hb : (animateCounterRun (T : ℚ) suffix init k).finished with _ | _
      · rfl
      · exact absurd (hfin.mp hb) (by omega)
    have hcast : ((k + 1 : ℕ) : ℚ) = (k : ℚ) + 1 := by push_cast; ring
    have hnext : (k : ℚ) * T / 50 + (T : ℚ) / 50 = ((k + 1 : ℕ) : ℚ) * T / 50 := by
      rw [hcast]; ring
    have step := animateCounterTick_not_finished (T : ℚ) suffix _ hnotfin
    rw [hcur, hnext, hcast] at step
    by_cases hcond : 50 ≤ k + 1
    · have hk49 : k = 49 := by omega
      have hTeq : ((k : ℚ) + 1) * T / 50 = (T : ℚ) := by
        subst hk49
        push_cast
        rw [show ((49 : ℚ) + 1) = 50 by norm_num, mul_comm, mul_div_assoc]
        norm_num
      rw [animateCounterRun, step, if_pos (le_of_eq hTeq.symm)]
      refine ⟨?_, ?_, ?_⟩
      · show (T : ℚ) = ((k + 1 : ℕ) : ℚ) * T / 50
        rw [hcast]
        exact hTeq.symm
      · show true = true ↔ k + 1 = 50
        simp
        omega
      · intro _
        show toLocaleString (Int.toNat ⌊(T : ℚ)⌋) ++ suffix =
          toLocaleString (Int.toNat ⌊((k + 1 : ℕ) : ℚ) * T / 50⌋) ++ suffix
        rw [hcast, hTeq]
    · have hlt : ¬ ((T : ℚ) ≤ ((k : ℚ) + 1) * T / 50) := by
        rw [← hcast, key (k + 1)]
        omega
      rw [animateCounterRun, step, if_neg hlt]
      refine ⟨?_, ?_, ?_⟩
      · show ((k : ℚ) + 1) * T / 50 = ((k + 1 : ℕ) : ℚ) * T / 50
        rw [hcast]
      · show false = true ↔ k + 1 = 50
        simp
        omega
      · intro _
        show toLocaleString (Int.toNat ⌊((k : ℚ) + 1) * T / 50⌋) ++ suffix =
          toLocaleString (Int.toNat ⌊((k + 1 : ℕ) : ℚ) * T / 50⌋) ++ suffix
        rw [hcast]

/-- After the 50th tick the state never changes again: the interval was
cleared and the callback no longer fires. -/
theorem animateCounterRun_stable (T : ℕ) (hT : 0 < T) (suffix init : String) :
    ∀ j : ℕ, animateCounterRun (T : ℚ) suffix init (50 + j) =
      animateCounterRun (T : ℚ) suffix init 50 := by
  have hfin : (animateCounterRun (T : ℚ) suffix init 50).finished = true :=
    ((animateCounterRun_char T hT suffix init 50 le_rfl).2.1).mpr rfl
  intro j
  induction j with
  | zero => rfl
  | succ j ih =>
    have : 50 + (j + 1) = (50 + j) + 1 := rfl
    rw [this, animateCounterRun, ih, animateCounterTick_finished _ _ _ hfin]

/-- The accumulator value at the 50th tick is exactly the target. -/
theorem animateCounterRun_current_50 (T : ℕ) (hT : 0 < T) (suffix init : String) :
    (animateCounterRun (T : ℚ) suffix init 50).current = (T : ℚ) := by
  have h := (animateCounterRun_char T hT suffix init 50 le_rfl).1
  rw [h]
  push_cast
  rw [mul_comm, mul_div_assoc]
  norm_num

/-- The text displayed at the 50th tick: the locale-formatted target plus
the suffix. -/
theorem animateCounterRun_display_50 (T : ℕ) (hT : 0 < T) (suffix init : String) :
    (animateCounterRun (T : ℚ) suffix init 50).display =
      toLocaleString T ++ suffix := by
  have h := (animateCounterRun_char T hT suffix init 50 le_rfl).2.2 (by norm_num)
  have hTeq : ((50 : ℕ) : ℚ) * T / 50 = (T : ℚ) := by
    push_cast
    rw [mul_comm, mul_div_assoc]
    norm_num
  rw [h, hTeq]
  norm_num

/-- C1: once the counter animation started by `animateCounter` completes
(`clearInterval` fires at the 50th tick, after which no tick changes the
state), the element's displayed text equals the locale-formatted
(thousands-separated) rendering of the target concatenated with the suffix;
in particular target 150 with suffix "+" yields "150+", and target 500000
yields "500,000" (or "500,000+" with suffix "+"). -/
theorem animateCounter_completes_with_formatted_target
    (T : ℕ) (suffix init : String) (hT : 0 < T) :
    (animateCounterRun (T : ℚ) suffix init 50).finished = true ∧
    (animateCounterRun (T : ℚ) suffix init 50).display =
      toLocaleString T ++ suffix ∧
    (∀ j : ℕ, animateCounterRun (T : ℚ) suffix init (50 + j) =
      animateCounterRun (T : ℚ) suffix init 50) ∧
    toLocaleString 150 ++ "+" = "150+" ∧
    toLocaleString 500000 = "500,000" ∧
    toLocaleString 500000 ++ "+" = "500,000+" :=
  ⟨((animateCounterRun_char T hT suffix init 50 le_rfl).2.1).mpr rfl,
   animateCounterRun_display_50 T hT suffix init,
   animateCounterRun_stable T hT suffix init,
   by decide, by decide, by decide⟩

/-- Witness for C1 at the configured counter target 150 with suffix "+". -/
theorem animateCounter_completes_with_formatted_target_witness :
    (0 < 150) ∧
    (animateCounterRun (150 : ℚ) "+" "0" 50).display = toLocaleString 150 ++ "+" :=
  ⟨by norm_num,
   (animateCounter_completes_with_formatted_target 150 "+" "0" (by norm_num)).2.1⟩

/-- C9: the animation started by `animateCounter` is a fixed-step linear
ramp from 0 to the target taking exactly 50 interval ticks over the fixed
2000ms duration: each tick adds target/50 to the accumulator, each tick
displays the floor of the accumulator (plus the suffix), and the accumulator
reaches the target — clearing the interval — exactly on the 50th tick. -/
theorem animateCounter_fixed_step_linear_ramp
    (T : ℕ) (suffix init : String) (hT : 0 < T) :
    counterDuration = 2000 ∧
    counterStepTime * 50 = counterDuration ∧
    (∀ k : ℕ, k < 50 →
      (animateCounterRun (T : ℚ) suffix init (k + 1)).current =
        (animateCounterRun (T : ℚ) suffix init k).current + (T : ℚ) / 50) ∧
    (∀ k : ℕ, 1 ≤ k → k ≤ 50 →
      (animateCounterRun (T : ℚ) suffix init k).display =
        toLocaleString
          (Int.toNat ⌊(animateCounterRun (T : ℚ) suffix init k).current⌋) ++ suffix) ∧
    (animateCounterRun (T : ℚ) suffix init 50).current = (T : ℚ) ∧
    (animateCounterRun (T : ℚ) suffix init 50).finished = true ∧
    (∀ k : ℕ, k < 50 → (animateCounterRun (T : ℚ) suffix init k).finished = false) := by
  refine ⟨rfl, by decide, ?_, ?_, animateCounterRun_current_50 T hT suffix init,
    ((animateCounterRun_char T hT suffix init 50 le_rfl).2.1).mpr rfl, ?_⟩
  · intro k hk
    have h1 := (animateCounterRun_char T hT suffix init (k + 1) (by omega)).1
    have h0 := (animateCounterRun_char T hT suffix init k (by omega)).1
    rw [h1, h0]
    push_cast
    ring
  · intro k hk1 hk50
    have hd := (animateCounterRun_char T hT suffix init k hk50).2.2 hk1
    have hc := (animateCounterRun_char T hT suffix init k hk50).1
    rw [hd, hc]
  · intro k hk
    have hiff := (animateCounterRun_char T hT suffix init k (by omega)).2.1
    rcases hb : (animateCounterRun (T : ℚ) suffix init k).finished with _ | _
    · rfl
    · exact absurd (hiff.mp hb) (by omega)

/-- Witness for C9 at target 150 with suffix "+": the accumulator reaches
150 and the interval is cleared at tick 50, and tick 1 is not final. -/
theorem animateCounter_fixed_step_linear_ramp_witness :
    (0 < 150) ∧
    (animateCounterRun (150 : ℚ) "+" "0" 50).current = (150 : ℚ) ∧
    (animateCounterRun (150 : ℚ) "+" "0" 50).finished = true ∧
    (animateCounterRun (150 : ℚ) "+" "0" 1).finished = false :=
  ⟨by norm_num,
   (animateCounter_fixed_step_linear_ramp 150 "+" "0" (by norm_num)).2.2.2.2.1,
   (animateCounter_fixed_step_linear_ramp 150 "+" "0" (by norm_num)).2.2.2.2.2.1,
   (animateCounter_fixed_step_linear_ramp 150 "+" "0" (by norm_num)).2.2.2.2.2.2 1
     (by norm_num)⟩

/-! ### Counter visibility observer (`initializeCounters`, lines 24-40)

```js
const counterObserver = new IntersectionObserver((entries) => {
    entries.forEach(entry => {
        if (entry.isIntersecting) {
            const counter = counters.find(c => c.element === entry.target);
            if (counter && !counter.element.classList.contains('counting')) {
                animateCounter(counter.element, counter.target, counter.suffix);
                counterObserver.unobserve(entry.target);
            }
        }
    });
}, observerOptions);
```

Per counter element, the observer state is: whether the element is still
observed (callbacks only fire for observed elements), whether the `counting`
class is present (added by `animateCounter`), and how many animations have
been started.  A visibility event is its `isIntersecting` flag. -/

/-- Observer-related state of one counter element. -/
structure CounterObsState where
  observed : Bool
  counting : Bool
  animStarts : ℕ
  deriving Repr, DecidableEq

/-- State right after `initializeCounters` observed the element. -/
def counterObsInit : CounterObsState :=
  { observed := true, counting := false, animStarts := 0 }

/-- One observer-callback entry for the element.  The callback only fires
while the element is observed; intersecting entries without the `counting`
class start the animation (which adds `counting`) and unobserve. -/
def counterObserverStep (s : CounterObsState) (isIntersecting : Bool) :
    CounterObsState :=
  if s.observed && isIntersecting && !s.counting then
    { observed := false, counting := true, animStarts := s.animStarts + 1 }
  else s

/-- Element state after a sequence of visibility events. -/
def counterObserverRun (events : List Bool) : CounterObsState :=
  events.foldl counterObserverStep counterObsInit

/-- Reachability invariant of the counter observer state machine. -/
def CounterObsInv (s : CounterObsState) : Prop :=
  (s.animStarts = 0 ∧ s.observed = true ∧ s.counting = false) ∨
  (s.animStarts = 1 ∧ s.observed = false ∧ s.counting = true)

theorem counterObserverStep_inv (s : CounterObsState) (e : Bool)
    (h : CounterObsInv s) : CounterObsInv (counterObserverStep s e) := by
  rcases h with ⟨h1, h2, h3⟩ | ⟨h1, h2, h3⟩
  · cases e
    · left
      simp [counterObserverStep, h1, h2, h3]
    · right
      simp [counterObserverStep, h1, h2, h3]
  · right
    simp [counterObserverStep, h1, h2, h3]

theorem counterObserverFold_inv (events : List Bool) :
    ∀ s : CounterObsState, CounterObsInv s →
      CounterObsInv (events.foldl counterObserverStep s) := by
  induction events with
  | nil => intro s hs; exact hs
  | cons e rest ih =>
    intro s hs
    exact ih _ (counterObserverStep_inv s e hs)

/-- C8: every configured counter animates at most once.  Over every sequence
of visibility transitions, at most one animation is started; once one has
been started, the element is unobserved and carries the `counting` guard
class, so no later event starts a second animation. -/
theorem counterObserver_animates_at_most_once (events : List Bool) :
    (counterObserverRun events).animStarts ≤ 1 ∧
    ((counterObserverRun events).animStarts = 1 →
      (counterObserverRun events).observed = false ∧
      (counterObserverRun events).counting = true) ∧
    ∀ more : List Bool,
      ((events ++ more).foldl counterObserverStep counterObsInit).animStarts ≤ 1 := by
  have hrun : CounterObsInv (counterObserverRun events) :=
    counterObserverFold_inv events counterObsInit (Or.inl ⟨rfl, rfl, rfl⟩)
  refine ⟨?_, ?_, ?_⟩
  · rcases hrun with ⟨h1, _, _⟩ | ⟨h1, _, _⟩ <;> omega
  · intro h1
    rcases hrun with ⟨h1', _, _⟩ | ⟨_, h2, h3⟩
    · omega
    · exact ⟨h2, h3⟩
  · intro more
    have h : CounterObsInv ((events ++ more).foldl counterObserverStep counterObsInit) :=
      counterObserverFold_inv (events ++ more) counterObsInit
        (Or.inl ⟨rfl, rfl, rfl⟩)
    rcases h with ⟨h1, _, _⟩ | ⟨h1, _, _⟩ <;> omega

/-- Witness for C8: an element that intersects, leaves, and intersects again
still runs one animation, is unobserved, and keeps the guard class. -/
theorem counterObserver_animates_at_most_once_witness :
    (counterObserverRun [true, false, true]).observed = false ∧
    (counterObserverRun [true, false, true]).counting = true :=
  (counterObserver_animates_at_most_once [true, false, true]).2.1 (by decide)

/-! ### Fade-in observer (`initializeScrollEffects`, lines 97-114)

```js
const fadeObserver = new IntersectionObserver((entries) => {
    entries.forEach(entry => {
        if (entry.isIntersecting) {
            entry.target.classList.add('show');
        }
    });
}, { threshold: 0.1, rootMargin: '0px 0px -50px 0px' });
```

Note: this callback never calls `unobserve`. -/

/-- Intersection threshold of the fade-in observer (`threshold: 0.1`). -/
def fadeThreshold : ℚ := 1 / 10

/-- Observer-related state of one `.fade-in` element.  `callbackHits` counts
how many times the intersecting branch processed this element. -/
structure FadeObsState where
  observed : Bool
  showClass : Bool
  callbackHits : ℕ
  deriving Repr, DecidableEq

/-- State right after `initializeScrollEffects` observed the element. -/
def fadeObsInit : FadeObsState :=
  { observed := true, showClass := false, callbackHits := 0 }

/-- One observer-callback entry for a `.fade-in` element: intersecting
entries get the `show` class added; the element is never unobserved. -/
def fadeObserverStep (s : FadeObsState) (isIntersecting : Bool) : FadeObsState :=
  if s.observed && isIntersecting then
    { s with showClass := true, callbackHits := s.callbackHits + 1 }
  else s

/-- Element state after a sequence of visibility events. -/
def fadeObserverRun (events : List Bool) : FadeObsState :=
  events.foldl fadeObserverStep fadeObsInit

/-! ### Reveal observer (`initializeRevealAnimations`, lines 346-361)

```js
const observer = new IntersectionObserver((entries, obs) => {
    entries.forEach(entry => {
        if (entry.isIntersecting) {
            const target = entry.target;
            const delay = target.getAttribute('data-delay');
            if (delay) target.style.setProperty('--reveal-delay', delay);
            target.classList.add('visible');
            obs.unobserve(target);
        }
    });
}, { threshold: 0.15, rootMargin: '0px 0px -40px 0px' });
```
-/

/-- Intersection threshold of the reveal observer (`threshold: 0.15`). -/
def revealThreshold : ℚ := 15 / 100

/-- Observer-related state of one `.reveal` element. -/
structure RevealObsState where
  observed : Bool
  visibleClass : Bool
  delayVarSet : Bool
  callbackHits : ℕ
  deriving Repr, DecidableEq

/-- State right after `initializeRevealAnimations` observed the element. -/
def revealObsInit : RevealObsState :=
  { observed := true, visibleClass := false, delayVarSet := false,
    callbackHits := 0 }

/-- One observer-callback entry for a `.reveal` element with `data-delay`
attribute `dataDelay`: intersecting entries get the delay style variable (if
a nonempty attribute is present), the `visible` class, and are unobserved. -/
def revealObserverStep (dataDelay : Option String) (s : RevealObsState)
    (isIntersecting : Bool) : RevealObsState :=
  if s.observed && isIntersecting then
    { observed := false
      visibleClass := true
      delayVarSet := s.delayVarSet || dataDelay.isSome
      callbackHits := s.callbackHits + 1 }
  else s

/-- Element state after a sequence of visibility events. -/
def revealObserverRun (dataDelay : Option String) (events : List Bool) :
    RevealObsState :=
  events.foldl (revealObserverStep dataDelay) revealObsInit

/-- Closed form of the fade-in observer fold: the element stays observed
forever, the `show` class records whether any intersecting event occurred,
and every intersecting event is processed again. -/
theorem fadeObserverFold_spec (events : List Bool) :
    ∀ (b : Bool) (n : ℕ),
      events.foldl fadeObserverStep
        { observed := true, showClass := b, callbackHits := n } =
      { observed := true, showClass := b || events.contains true,
        callbackHits := n + events.count true } := by
  induction events with
  | nil => intro b n; simp
  | cons e rest ih =>
    intro b n
    cases e
    · rw [List.foldl_cons       ]
      rw [show fadeObserverStep
          { observed := true, showClass := b, callbackHits := n } false =
          { observed := true, showClass := b, callbackHits := n } by
        simp [fadeObserverStep]]
      rw [ih b n]
      simp
    · rw [List.foldl_cons]
      rw [show fadeObserverStep
          { observed := true, showClass := b, callbackHits := n } true =
          { observed := true, showClass := true, callbackHits := n + 1 } by
        simp [fadeObserverStep]]
      rw [ih true (n + 1)]
      simp [List.count_cons]
      omega

/-- Reachability invariant of the reveal observer state machine. -/
def RevealObsInv (s : RevealObsState) : Prop :=
  (s.callbackHits = 0 ∧ s.observed = true ∧ s.visibleClass = false) ∨
  (s.callbackHits = 1 ∧ s.observed = false ∧ s.visibleClass = true)

theorem revealObserverStep_inv (dataDelay : Option String) (s : RevealObsState)
    (e : Bool) (h : RevealObsInv s) :
    RevealObsInv (revealObserverStep dataDelay s e) := by
  rcases h with ⟨h1, h2, h3⟩ | ⟨h1, h2, h3⟩
  · cases e
    · left
      simp [revealObserverStep, h1, h2, h3]
    · right
      simp [revealObserverStep, h1, h2, h3]
  · right
    simp [revealObserverStep, h1, h2, h3]

theorem revealObserverFold_inv (dataDelay : Option String) (events : List Bool) :
    ∀ s : RevealObsState, RevealObsInv s →
      RevealObsInv (events.foldl (revealObserverStep dataDelay) s) := by
  induction events with
  | nil => intro s hs; exact hs
  | cons e rest ih =>
    intro s hs
    exact ih _ (revealObserverStep_inv dataDelay s e hs)

/-- C5 counterexample: the fade-in observer is not one-shot.  After a
triggering intersection has added the `show` class, the element is still
observed, and a second intersection is processed again by the callback
(the fade callback never calls `unobserve`). -/
theorem fade_observer_not_one_shot_counterexample :
    (fadeObserverRun [true]).showClass = true ∧
    (fadeObserverRun [true]).observed = true ∧
    (fadeObserverRun [true, true]).callbackHits = 2 := by decide

/-- C5 amended: only the reveal observer (adds `visible` at 15% visibility)
is strictly one-shot — once triggered it unobserves the element, so no later
visibility change processes it again.  The fade-in observer (adds `show` at
10% visibility) never unobserves: the element stays observed and every later
intersecting event is processed again, re-adding `show` idempotently (the
class, once present, persists). -/
theorem reveal_one_shot_fade_persistent (dataDelay : Option String)
    (events : List Bool) :
    (revealObserverRun dataDelay events).callbackHits ≤ 1 ∧
    ((revealObserverRun dataDelay events).callbackHits = 1 →
      (revealObserverRun dataDelay events).observed = false ∧
      (revealObserverRun dataDelay events).visibleClass = true) ∧
    (fadeObserverRun events).observed = true ∧
    (fadeObserverRun events).showClass = events.contains true ∧
    (fadeObserverRun events).callbackHits = events.count true ∧
    fadeThreshold = 1 / 10 ∧ revealThreshold = 3 / 20 := by
  have hrev : RevealObsInv (revealObserverRun dataDelay events) :=
    revealObserverFold_inv dataDelay events revealObsInit (Or.inl ⟨rfl, rfl, rfl⟩)
  have hfade : fadeObserverRun events =
      { observed := true, showClass := false || events.contains true,
        callbackHits := 0 + events.count true } :=
    fadeObserverFold_spec events false 0
  refine ⟨?_, ?_, ?_, ?_, ?_, rfl, by norm_num [revealThreshold]⟩
  · rcases hrev with ⟨h1, _, _⟩ | ⟨h1, _, _⟩ <;> omega
  · intro h1
    rcases hrev with ⟨h1', _, _⟩ | ⟨_, h2, h3⟩
    · omega
    · exact ⟨h2, h3⟩
  · rw [hfade]
  · rw [hfade]
    simp
  · rw [hfade]
    simp

/-- Witness for the amended C5: a reveal element (with a `data-delay`
attribute) that intersects once is unobserved with the `visible` class. -/
theorem reveal_one_shot_fade_persistent_witness :
    (revealObserverRun (some "200ms") [true]).observed = false ∧
    (revealObserverRun (some "200ms") [true]).visibleClass = true :=
  (reveal_one_shot_fade_persistent (some "200ms") [true]).2.1 (by decide)

/-! ### Navigation (`initializeNavigation` / `updateActiveNavigation`,
lines 60-96)

```js
function updateActiveNavigation() {
    const sections = document.querySelectorAll('section[id]');
    const navLinks = document.querySelectorAll('.navbar-nav .nav-link');
    let current = '';
    sections.forEach(section => {
        const sectionTop = section.offsetTop - 100;
        const sectionHeight = section.clientHeight;
        if (window.scrollY >= sectionTop && window.scrollY < sectionTop + sectionHeight) {
            current = section.getAttribute('id');
        }
    });
    navLinks.forEach(link => {
        link.classList.remove('active');
        if (link.getAttribute('href') === `#` + current) {
            link.classList.add('active');
        }
    });
}
```
-/

/-- A `section[id]` element: its id, `offsetTop`, and `clientHeight`. -/
structure PageSection where
  id : String
  offsetTop : ℤ
  clientHeight : ℤ
  deriving Repr, DecidableEq

/-- A `.navbar-nav .nav-link` element: its `href` attribute and whether it
carries the `active` class. -/
structure NavLink where
  href : String
  active : Bool
  deriving Repr, DecidableEq

/-- The per-section test of `updateActiveNavigation`:
`scrollY >= offsetTop - 100 && scrollY < offsetTop - 100 + clientHeight`. -/
def sectionInView (scrollY : ℤ) (s : PageSection) : Bool :=
  decide (s.offsetTop - 100 ≤ scrollY) &&
    decide (scrollY < s.offsetTop - 100 + s.clientHeight)

/-- The `current` variable after the `sections.forEach` loop: the id of the
last section (in document order) passing the test, or `""` if none does. -/
def currentSectionId (scrollY : ℤ) (sections : List PageSection) : String :=
  sections.foldl (fun cur s => if sectionInView scrollY s then s.id else cur) ""

/-- The `navLinks.forEach` loop: each link ends with the `active` class iff
its href equals `"#" + current`. -/
def updateActiveNavigation (scrollY : ℤ) (sections : List PageSection)
    (links : List NavLink) : List NavLink :=
  links.map fun l =>
    { l with active := l.href == "#" ++ currentSectionId scrollY sections }

/-- If no section passes the test, the fold leaves the accumulator alone. -/
theorem currentFold_no_match (scrollY : ℤ) (sections : List PageSection)
    (h : ∀ s ∈ sections, sectionInView scrollY s = false) :
    ∀ acc : String,
      sections.foldl (fun cur s => if sectionInView scrollY s then s.id else cur)
        acc = acc := by
  induction sections with
  | nil => intro acc; rfl
  | cons s rest ih =>
    intro acc
    rw [List.foldl_cons, if_neg (by simp [h s (List.mem_cons_self s rest)])]
    exact ih (fun x hx => h x (List.mem_cons_of_mem s hx)) acc

/-- If exactly one section passes the test, the fold returns its id. -/
theorem currentFold_unique_match (scrollY : ℤ) (sections : List PageSection)
    (X : PageSection)
    (h : sections.filter (sectionInView scrollY) = [X]) :
    ∀ acc : String,
      sections.foldl (fun cur s => if sectionInView scrollY s then s.id else cur)
        acc = X.id := by
  induction sections with
  | nil => simp at h
  | cons s rest ih =>
    intro acc
    by_cases hs : sectionInView scrollY s = true
    · rw [List.filter_cons_of_pos hs] at h
      have hsX : s = X := by
        injection h
      have hrest : rest.filter (sectionInView scrollY) = [] := by
        injection h
      have hnone : ∀ x ∈ rest, sectionInView scrollY x = false := by
        intro x hx
        simpa using List.filter_eq_nil_iff.mp hrest x hx
      rw [List.foldl_cons, if_pos hs, hsX,
        currentFold_no_match scrollY rest hnone X.id]
    · rw [List.filter_cons_of_neg hs] at h
      rw [List.foldl_cons, if_neg hs]
      exact ih h acc

/-- The amended C6, by the claim's own wording for "the viewport center lies
within the bounds of section #X": the midpoint of the visible window,
`scrollY + viewportHeight / 2`, falls inside
`[offsetTop, offsetTop + clientHeight)`.  The code does not use this
criterion (see the counterexample). -/
def viewportCenterWithin (viewportHeight scrollY : ℤ) (s : PageSection) : Prop :=
  s.offsetTop ≤ scrollY + viewportHeight / 2 ∧
    scrollY + viewportHeight / 2 < s.offsetTop + s.clientHeight

/-- C6 counterexample: a scroll state whose viewport center lies within the
section's bounds, yet `updateActiveNavigation` activates no link, because the
code compares `scrollY` itself (with a 100px margin) against the section's
bounds, not the viewport center. -/
theorem updateActiveNavigation_center_counterexample :
    viewportCenterWithin 800 650
      { id := "about", offsetTop := 1000, clientHeight := 100 } ∧
    (updateActiveNavigation 650
        [{ id := "about", offsetTop := 1000, clientHeight := 100 }]
        [{ href := "#about", active := false }]).countP NavLink.active = 0 := by
  constructor
  · constructor <;> decide
  · decide

/-- C6 amended: `updateActiveNavigation` activates exactly the links whose
href is `"#" + current` where `current` is the id of the last section with
`scrollY ∈ [offsetTop - 100, offsetTop - 100 + clientHeight)` (the code's
criterion, not the viewport center).  When exactly one section matches and
exactly one link points at it, exactly that link is active; with pairwise
distinct link hrefs at most one link is active; when no section matches and
no link's href is bare `"#"`, no link is active. -/
theorem updateActiveNavigation_exactly_one_active (scrollY : ℤ)
    (sections : List PageSection) (links : List NavLink) (X : PageSection) :
    (∀ l ∈ updateActiveNavigation scrollY sections links,
      l.active = (l.href == "#" ++ currentSectionId scrollY sections)) ∧
    ((sections.filter (sectionInView scrollY) = [X] ∧
        links.countP (fun l => l.href == "#" ++ X.id) = 1) →
      ((updateActiveNavigation scrollY sections links).countP NavLink.active = 1 ∧
        ∀ l ∈ updateActiveNavigation scrollY sections links,
          l.active = (l.href == "#" ++ X.id))) ∧
    ((links.map NavLink.href).Nodup →
      (updateActiveNavigation scrollY sections links).countP NavLink.active ≤ 1) ∧
    ((∀ s ∈ sections, sectionInView scrollY s = false) →
      (∀ l ∈ links, l.href ≠ "#") →
      ∀ l ∈ updateActiveNavigation scrollY sections links, l.active = false) := by
  have hchar : ∀ l ∈ updateActiveNavigation scrollY sections links,
      l.active = (l.href == "#" ++ currentSectionId scrollY sections) := by
    intro l hl
    rw [updateActiveNavigation] at hl
    obtain ⟨l0, _, rfl⟩ := List.mem_map.mp hl
    rfl
  have hcount : ∀ t : String,
      (links.map fun l => { l with active := l.href == "#" ++ t } :
        List NavLink).countP NavLink.active =
      links.countP fun l => l.href == "#" ++ t := by
    intro t
    rw [List.countP_map]
    rfl
  refine ⟨hchar, ?_, ?_, ?_⟩
  · rintro ⟨hX, hlinks⟩
    have hcur : currentSectionId scrollY sections = X.id :=
      currentFold_unique_match scrollY sections X hX ""
    constructor
    · rw [updateActiveNavigation, hcur, hcount]
      exact hlinks
    · intro l hl
      rw [hchar l hl, hcur]
  · intro hnodup
    rw [updateActiveNavigation, hcount]
    have hmapcount : (links.countP fun l =>
        l.href == "#" ++ currentSectionId scrollY sections) =
        (links.map NavLink.href).count ("#" ++ currentSectionId scrollY sections) := by
      rw [List.count, List.countP_map]
      rfl
    rw [hmapcount]
    exact List.nodup_iff_count_le_one.mp hnodup _
  · intro hnone hsharp l hl
    have hcur : currentSectionId scrollY sections = "" :=
      currentFold_no_match scrollY sections hnone ""
    rw [hchar l hl, hcur]
    obtain ⟨l0, hl0, rfl⟩ := List.mem_map.mp (by rw [updateActiveNavigation] at hl; exact hl)
    simpa using hsharp l0 hl0

/-- Witness for the amended C6: section `about` spans `[1000, 1100)`; at
`scrollY = 950` (within the 100px pre-trigger margin) exactly the `#about`
link of two links is active. -/
theorem updateActiveNavigation_exactly_one_active_witness :
    (updateActiveNavigation 950
      [{ id := "about", offsetTop := 1000, clientHeight := 100 }]
      [{ href := "#about", active := false },
       { href := "#home", active := false }]).countP NavLink.active = 1 :=
  ((updateActiveNavigation_exactly_one_active 950
      [{ id := "about", offsetTop := 1000, clientHeight := 100 }]
      [{ href := "#about", active := false },
       { href := "#home", active := false }]
      { id := "about", offsetTop := 1000, clientHeight := 100 }).2.1
    ⟨by decide, by decide⟩).1

/-! ### Anchor click handler (`initializeNavigation`, lines 61-73)

```js
anchor.addEventListener('click', function (e) {
    e.preventDefault();
    const target = document.querySelector(this.getAttribute('href'));
    if (target) {
        const offsetTop = target.offsetTop - 80;
        window.scrollTo({ top: offsetTop, behavior: 'smooth' });
    }
});
```
-/

/-- Observable outcome of one click on an `a[href^="#"]` anchor. -/
structure ClickOutcome where
  defaultPrevented : Bool
  scrollTargets : List ℤ
  deriving Repr, DecidableEq

/-- The click handler: `querySelector` maps a selector to the `offsetTop` of
the matched element, if any.  `preventDefault` always runs first; a found
target yields exactly one smooth-scroll command to `offsetTop - 80`. -/
def anchorClickHandler (querySelector : String → Option ℤ) (href : String) :
    ClickOutcome :=
  match querySelector href with
  | some offsetTop => { defaultPrevented := true, scrollTargets := [offsetTop - 80] }
  | none => { defaultPrevented := true, scrollTargets := [] }

/-- C7: for every click on a same-page anchor link whose target element
exists, the handler cancels the default jump and issues exactly one scroll
command to the target's `offsetTop` minus the fixed 80px header height. -/
theorem anchorClick_scrolls_to_offset_minus_header
    (querySelector : String → Option ℤ) (href : String) (offsetTop : ℤ)
    (h : querySelector href = some offsetTop) :
    (anchorClickHandler querySelector href).defaultPrevented = true ∧
    (anchorClickHandler querySelector href).scrollTargets = [offsetTop - 80] := by
  rw [anchorClickHandler, h]
  exact ⟨rfl, rfl⟩

/-- Witness for C7: a page with `#programs` at `offsetTop = 500` scrolls to
`420`. -/
theorem anchorClick_scrolls_to_offset_minus_header_witness :
    (anchorClickHandler
      (fun s => if s = "#programs" then some 500 else none)
      "#programs").scrollTargets = [500 - 80] :=
  (anchorClick_scrolls_to_offset_minus_header
    (fun s => if s = "#programs" then some 500 else none)
    "#programs" 500 (by decide)).2

/-! ### String trimming

`String.prototype.trim()` as used by `submitInfoRequest`: strip leading and
trailing whitespace. -/

/-- Whitespace characters recognised by `trim()` (the ASCII ones plus
no-break space; the forms only ever handle such input). -/
def isJsWhitespace (c : Char) : Bool :=
  c = ' ' || c = '\t' || c = '\n' || c = '\r' ||
    c = '\x0b' || c = '\x0c' || c = ' '

/-- The result of `s.trim()`: the string without leading and trailing whitespace. -/
def jsTrim (s : String) : String :=
  String.mk (((s.data.dropWhile isJsWhitespace).reverse.dropWhile
    isJsWhitespace).reverse)

example : jsTrim "  Ada " = "Ada" := by decide
example : jsTrim "Ada" = "Ada" := by decide

/-! ### Application form (`submitApplication` lines 124-161,
`showSuccessMessage` lines 162-176, `trackEvent` lines 177-179)

The DOM state the handler touches is collected in `AppState`; the
`setTimeout` closures become `AppTask`s carrying what they capture
(`formData`, `originalText`), queued with their delay in ms. -/

/-- The application form's five field values. -/
structure AppFields where
  firstName : String
  lastName : String
  email : String
  program : String
  startDate : String
  deriving Repr, DecidableEq

/-- Outcome of native constraint validation for each field. -/
structure AppValidity where
  firstName : Bool
  lastName : Bool
  email : Bool
  program : Bool
  startDate : Bool
  deriving Repr, DecidableEq

/-- Models `form.checkValidity()`: true iff every field satisfies its constraints. -/
def formCheckValidity (v : AppValidity) : Bool :=
  v.firstName && v.lastName && v.email && v.program && v.startDate

/-- The `formData` object built by `submitApplication`. -/
structure AppFormData where
  firstName : String
  lastName : String
  email : String
  program : String
  startDate : String
  submittedAt : String
  deriving Repr, DecidableEq

/-- Construction of `formData`: field values verbatim plus
`new Date().toISOString()` (the ambient time, passed in as `now`). -/
def mkAppFormData (f : AppFields) (now : String) : AppFormData :=
  { firstName := f.firstName, lastName := f.lastName, email := f.email,
    program := f.program, startDate := f.startDate, submittedAt := now }

/-- The `payload` object built by `submitInfoRequest`: free-text fields
trimmed, the select value verbatim, plus the timestamp. -/
structure InfoPayload where
  firstName : String
  lastName : String
  email : String
  interest : String
  message : String
  submittedAt : String
  deriving Repr, DecidableEq

/-- The info-request fields as read from the DOM. -/
structure InfoFields where
  riFirstName : String
  riLastName : String
  riEmail : String
  riInterest : String
  riMessage : String
  deriving Repr, DecidableEq

/-- Construction of `payload` in `submitInfoRequest` (lines 462-469). -/
def mkInfoPayload (f : InfoFields) (now : String) : InfoPayload :=
  { firstName := jsTrim f.riFirstName, lastName := jsTrim f.riLastName,
    email := jsTrim f.riEmail, interest := f.riInterest,
    message := jsTrim f.riMessage, submittedAt := now }

/-- Console records produced by the two flows and by `trackEvent`. -/
inductive LogEntry where
  | appSubmitted (fd : AppFormData)
  | infoSubmitted (p : InfoPayload)
  | eventTracked (name : String) (data : String)
  deriving Repr, DecidableEq

/-- Delayed work scheduled by the application flow: the 2000ms submission
completion (capturing `formData` and `originalText`) and the 5000ms
success-message hide from `showSuccessMessage`. -/
inductive AppTask where
  | submitComplete (fd : AppFormData) (originalText : String)
  | hideSuccess
  deriving Repr, DecidableEq

/-- The submit button's label while the mock submission is in flight. -/
def appLoadingLabel : String := "<span class=\"loading\"></span> Submitting..."

/-- The success banner text of the application flow. -/
def appSuccessText : String :=
  "Application submitted successfully! We'll contact you within 2 business days."

/-- DOM state touched by the application-form flow. -/
structure AppState where
  fields : AppFields
  defaults : AppFields
  validity : AppValidity
  validityReported : Bool
  btnLabel : String
  btnDisabled : Bool
  successVisible : Bool
  successText : String
  modalOpen : Bool
  log : List LogEntry
  tasks : List (ℕ × AppTask)
  deriving Repr, DecidableEq

/-- Models `showSuccessMessage(message)`: show the banner and schedule hiding it
after 5000ms. -/
def showSuccessMessage (message : String) (s : AppState) : AppState :=
  { s with
    successText := message
    successVisible := true
    tasks := s.tasks ++ [(5000, AppTask.hideSuccess)] }

/-- The synchronous part of `submitApplication`: abort via
`reportValidity()` when the form is invalid; otherwise swap the button for
the loading label, disable it, build `formData`, and schedule the 2000ms
completion. -/
def submitApplication (now : String) (s : AppState) : AppState :=
  if ¬ formCheckValidity s.validity then
    { s with validityReported := true }
  else
    { s with
      btnLabel := appLoadingLabel
      btnDisabled := true
      tasks := s.tasks ++
        [(2000, AppTask.submitComplete (mkAppFormData s.fields now) s.btnLabel)] }

/-- Execution of one scheduled application-flow task.  The 2000ms completion
logs the record, shows the success banner, resets the form, hides the modal,
restores the button, and tracks the event; the 5000ms task hides the banner. -/
def runAppTask (t : AppTask) (s : AppState) : AppState :=
  match t with
  | .submitComplete fd originalText =>
    let s1 := { s with log := s.log ++ [LogEntry.appSubmitted fd] }
    let s2 := showSuccessMessage appSuccessText s1
    let s3 := { s2 with fields := s2.defaults }
    let s4 := { s3 with modalOpen := false }
    let s5 := { s4 with btnLabel := originalText, btnDisabled := false }
    { s5 with log := s5.log ++
        [LogEntry.eventTracked "application_submitted" fd.program] }
  | .hideSuccess => { s with successVisible := false }

/-! ### Info-request form (`submitInfoRequest`, lines 445-482) -/

/-- Native validity of the three required info-request fields. -/
structure InfoValidity where
  riFirstName : Bool
  riLastName : Bool
  riEmail : Bool
  deriving Repr, DecidableEq

/-- Presence of the `is-invalid` class on the three required fields. -/
structure InfoInvalidMarks where
  riFirstName : Bool
  riLastName : Bool
  riEmail : Bool
  deriving Repr, DecidableEq

/-- Delayed work scheduled by the info-request flow: only the 1500ms
completion exists — this flow schedules no hide for its success message. -/
inductive InfoTask where
  | requestComplete (payload : InfoPayload) (originalLabel : String)
  deriving Repr, DecidableEq

/-- The info submit button's label while the mock submission is in flight. -/
def infoLoadingLabel : String := "<span class=\"loading\"></span> Sending..."

/-- The success text of the info-request flow. -/
def infoSuccessText : String :=
  "Thank you! Your request has been received. We will respond shortly."

/-- DOM state touched by the info-request flow.  `successHidden` models the
`d-none` class on the `infoSuccess` element. -/
structure InfoState where
  fields : InfoFields
  defaults : InfoFields
  validity : InfoValidity
  invalidMarks : InfoInvalidMarks
  btnLabel : String
  btnDisabled : Bool
  successExists : Bool
  successHidden : Bool
  successText : String
  log : List LogEntry
  tasks : List (ℕ × InfoTask)
  deriving Repr, DecidableEq

/-- The synchronous part of `submitInfoRequest`: mark each failing required
field `is-invalid` and abort if any fails; otherwise disable the button,
swap in the loading label, build the trimmed payload, and schedule the
1500ms completion. -/
def submitInfoRequest (now : String) (s : InfoState) : InfoState :=
  let marks : InfoInvalidMarks :=
    { riFirstName := s.invalidMarks.riFirstName || !s.validity.riFirstName
      riLastName := s.invalidMarks.riLastName || !s.validity.riLastName
      riEmail := s.invalidMarks.riEmail || !s.validity.riEmail }
  if s.validity.riFirstName && s.validity.riLastName && s.validity.riEmail then
    { s with invalidMarks := marks
             btnDisabled := true
             btnLabel := infoLoadingLabel
             tasks := s.tasks ++
               [(1500, InfoTask.requestComplete (mkInfoPayload s.fields now)
                 s.btnLabel)] }
  else
    { s with invalidMarks := marks }

/-- Execution of the scheduled info-request completion: log the payload,
reveal the success element (if present) with the thank-you text, reset the
form, restore the button, and track the event.  No hide is scheduled. -/
def runInfoTask (t : InfoTask) (s : InfoState) : InfoState :=
  match t with
  | .requestComplete payload originalLabel =>
    let s1 := { s with log := s.log ++ [LogEntry.infoSubmitted payload] }
    let s2 := if s1.successExists then
        { s1 with successHidden := false, successText := infoSuccessText }
      else s1
    let s3 := { s2 with fields := s2.defaults }
    let s4 := { s3 with btnDisabled := false, btnLabel := originalLabel }
    { s4 with log := s4.log ++
        [LogEntry.eventTracked "info_request_submitted" payload.interest] }

/-- Run every pending info-flow task, in scheduling order. -/
def runPendingInfoTasks (s : InfoState) : InfoState :=
  s.tasks.foldl (fun st dt => runInfoTask dt.2 st) { s with tasks := [] }

/-! ### Example states for witnesses -/

/-- Empty application fields (the markup's initial values). -/
def appFieldsEmpty : AppFields :=
  { firstName := "", lastName := "", email := "", program := "",
    startDate := "" }

/-- Filled-in application fields. -/
def appFieldsEx : AppFields :=
  { firstName := "Ada", lastName := "Lovelace", email := "ada@example.com",
    program := "computer-science", startDate := "2026-09-01" }

/-- Application state with an empty (hence invalid) first name. -/
def appStateInvalidEx : AppState :=
  { fields := { appFieldsEx with firstName := "" }
    defaults := appFieldsEmpty
    validity := { firstName := false, lastName := true, email := true,
                  program := true, startDate := true }
    validityReported := false
    btnLabel := "Submit Application"
    btnDisabled := false
    successVisible := false
    successText := ""
    modalOpen := true
    log := []
    tasks := [] }

/-- Application state with every field valid. -/
def appStateValidEx : AppState :=
  { appStateInvalidEx with
    fields := appFieldsEx
    validity := { firstName := true, lastName := true, email := true,
                  program := true, startDate := true } }

/-- Empty info-request fields. -/
def infoFieldsEmpty : InfoFields :=
  { riFirstName := "", riLastName := "", riEmail := "", riInterest := "",
    riMessage := "" }

/-- Filled-in info-request fields. -/
def infoFieldsEx : InfoFields :=
  { riFirstName := "Ada", riLastName := "Lovelace",
    riEmail := "ada@example.com", riInterest := "computer-science",
    riMessage := "Please send details." }

/-- Info-request state with every required field valid. -/
def infoStateValidEx : InfoState :=
  { fields := infoFieldsEx
    defaults := infoFieldsEmpty
    validity := { riFirstName := true, riLastName := true, riEmail := true }
    invalidMarks := { riFirstName := false, riLastName := false,
                      riEmail := false }
    btnLabel := "Request Info"
    btnDisabled := false
    successExists := true
    successHidden := true
    successText := ""
    log := []
    tasks := [] }

/-! ### Claims C2, C3, C4, C10 -/

/-- C2: submitting the application form while any required field fails
native constraint validation leaves every field value unmodified, produces
no console record at all ("Application submitted" included), schedules no
delayed work, and leaves the submit button's disabled state and label
unchanged (`reportValidity` is the only effect). -/
theorem submitApplication_invalid_aborts (now : String) (s : AppState)
    (h : s.validity.firstName = false ∨ s.validity.lastName = false ∨
      s.validity.email = false ∨ s.validity.program = false ∨
      s.validity.startDate = false) :
    (submitApplication now s).fields = s.fields ∧
    (submitApplication now s).log = s.log ∧
    (submitApplication now s).tasks = s.tasks ∧
    (submitApplication now s).btnDisabled = s.btnDisabled ∧
    (submitApplication now s).btnLabel = s.btnLabel := by
  have hv : formCheckValidity s.validity = false := by
    rcases h with h | h | h | h | h <;> simp [formCheckValidity, h]
  rw [submitApplication, if_pos (by simp [hv])]
  exact ⟨rfl, rfl, rfl, rfl, rfl⟩

/-- Witness for C2: an application with an empty first name schedules
nothing, logs nothing, and keeps the enabled submit button. -/
theorem submitApplication_invalid_aborts_witness :
    (submitApplication "2026-10-11T12:00:00.000Z" appStateInvalidEx).tasks =
      appStateInvalidEx.tasks ∧
    (submitApplication "2026-10-11T12:00:00.000Z" appStateInvalidEx).log =
      appStateInvalidEx.log ∧
    (submitApplication "2026-10-11T12:00:00.000Z" appStateInvalidEx).btnDisabled =
      appStateInvalidEx.btnDisabled :=
  ⟨(submitApplication_invalid_aborts "2026-10-11T12:00:00.000Z"
      appStateInvalidEx (Or.inl rfl)).2.2.1,
   (submitApplication_invalid_aborts "2026-10-11T12:00:00.000Z"
      appStateInvalidEx (Or.inl rfl)).2.1,
   (submitApplication_invalid_aborts "2026-10-11T12:00:00.000Z"
      appStateInvalidEx (Or.inl rfl)).2.2.2.1⟩

/-- C3: submitting a fully valid application form schedules the fixed 2000ms
completion; executing it logs a record carrying the collected field values
and the submission timestamp, shows the success message, resets the form to
its defaults, re-enables the submit button with its original label, and
emits the `application_submitted` tracking event with the selected program. -/
theorem submitApplication_valid_flow (now : String) (s s2 : AppState)
    (h : formCheckValidity s.validity = true)
    (h2 : s2 = runAppTask
      (AppTask.submitComplete (mkAppFormData s.fields now) s.btnLabel)
      (submitApplication now s)) :
    (submitApplication now s).tasks = s.tasks ++
      [(2000, AppTask.submitComplete (mkAppFormData s.fields now) s.btnLabel)] ∧
    (submitApplication now s).btnDisabled = true ∧
    (submitApplication now s).btnLabel = appLoadingLabel ∧
    LogEntry.appSubmitted (mkAppFormData s.fields now) ∈ s2.log ∧
    (mkAppFormData s.fields now).firstName = s.fields.firstName ∧
    (mkAppFormData s.fields now).lastName = s.fields.lastName ∧
    (mkAppFormData s.fields now).email = s.fields.email ∧
    (mkAppFormData s.fields now).program = s.fields.program ∧
    (mkAppFormData s.fields now).startDate = s.fields.startDate ∧
    (mkAppFormData s.fields now).submittedAt = now ∧
    s2.successVisible = true ∧
    s2.successText = appSuccessText ∧
    s2.fields = s.defaults ∧
    s2.btnDisabled = false ∧
    s2.btnLabel = s.btnLabel ∧
    LogEntry.eventTracked "application_submitted" s.fields.program ∈ s2.log := by
  subst h2
  rw [submitApplication, if_neg (by simp [h])]
  refine ⟨rfl, rfl, rfl, ?_, rfl, rfl, rfl, rfl, rfl, rfl, rfl, rfl, rfl, rfl,
    rfl, ?_⟩
  · simp [runAppTask, showSuccessMessage]
  · simp [runAppTask, showSuccessMessage, mkAppFormData]

/-- Witness for C3 on a concrete valid application state. -/
theorem submitApplication_valid_flow_witness :
    (submitApplication "2026-10-11T12:00:00.000Z" appStateValidEx).btnDisabled
      = true ∧
    (runAppTask
      (AppTask.submitComplete
        (mkAppFormData appStateValidEx.fields "2026-10-11T12:00:00.000Z")
        appStateValidEx.btnLabel)
      (submitApplication "2026-10-11T12:00:00.000Z"
        appStateValidEx)).successVisible = true ∧
    (runAppTask
      (AppTask.submitComplete
        (mkAppFormData appStateValidEx.fields "2026-10-11T12:00:00.000Z")
        appStateValidEx.btnLabel)
      (submitApplication "2026-10-11T12:00:00.000Z"
        appStateValidEx)).fields = appStateValidEx.defaults :=
  ⟨(submitApplication_valid_flow "2026-10-11T12:00:00.000Z" appStateValidEx _
      (by decide) rfl).2.1,
   (submitApplication_valid_flow "2026-10-11T12:00:00.000Z" appStateValidEx _
      (by decide) rfl).2.2.2.2.2.2.2.2.2.2.1,
   (submitApplication_valid_flow "2026-10-11T12:00:00.000Z" appStateValidEx _
      (by decide) rfl).2.2.2.2.2.2.2.2.2.2.2.2.1⟩

/-- C4 counterexample: in the info-request flow the success message is NOT
auto-hidden after 5000ms.  On a concrete valid submission, once the 1500ms
completion has run, the success element is visible (`d-none` removed) and the
pending-task queue is empty — no hide is scheduled, ever. -/
theorem infoRequest_success_not_autohidden_counterexample :
    (runPendingInfoTasks
      (submitInfoRequest "2026-10-11T12:00:00.000Z" infoStateValidEx)).successHidden
      = false ∧
    (runPendingInfoTasks
      (submitInfoRequest "2026-10-11T12:00:00.000Z" infoStateValidEx)).tasks
      = [] := by
  constructor
  · rfl
  · rfl

/-- C4 amended: only the application-form flow auto-hides its success
message: `showSuccessMessage` shows the banner and schedules a 5000ms hide
whose execution hides it again.  The info-request flow reveals its success
element but never schedules a hide: after its completion task runs, the
message is visible and no task remains pending. -/
theorem success_message_autohide_app_only (message : String) (sApp : AppState)
    (now : String) (sInfo : InfoState)
    (hv1 : sInfo.validity.riFirstName = true)
    (hv2 : sInfo.validity.riLastName = true)
    (hv3 : sInfo.validity.riEmail = true)
    (hq : sInfo.tasks = [])
    (he : sInfo.successExists = true) :
    (showSuccessMessage message sApp).successVisible = true ∧
    (showSuccessMessage message sApp).tasks =
      sApp.tasks ++ [(5000, AppTask.hideSuccess)] ∧
    (runAppTask AppTask.hideSuccess
      (showSuccessMessage message sApp)).successVisible = false ∧
    (runPendingInfoTasks (submitInfoRequest now sInfo)).successHidden = false ∧
    (runPendingInfoTasks (submitInfoRequest now sInfo)).tasks = [] := by
  have hsub : submitInfoRequest now sInfo =
      { sInfo with
        invalidMarks := { riFirstName := sInfo.invalidMarks.riFirstName
                          riLastName := sInfo.invalidMarks.riLastName
                          riEmail := sInfo.invalidMarks.riEmail }
        btnDisabled := true
        btnLabel := infoLoadingLabel
        tasks := sInfo.tasks ++
          [(1500, InfoTask.requestComplete (mkInfoPayload sInfo.fields now)
            sInfo.btnLabel)] } := by
    rw [submitInfoRequest]
    simp [hv1, hv2, hv3]
  refine ⟨rfl, rfl, rfl, ?_, ?_⟩
  · rw [hsub, runPendingInfoTasks]
    simp only [hq, List.nil_append, List.foldl_cons, List.foldl_nil]
    simp [runInfoTask, he]
  · rw [hsub, runPendingInfoTasks]
    simp only [hq, List.nil_append, List.foldl_cons, List.foldl_nil]
    simp [runInfoTask, he]

/-- Witness for the amended C4 on concrete states. -/
theorem success_message_autohide_app_only_witness :
    (runAppTask AppTask.hideSuccess
      (showSuccessMessage appSuccessText appStateValidEx)).successVisible
      = false ∧
    (runPendingInfoTasks
      (submitInfoRequest "2026-10-11T12:00:00.000Z"
        infoStateValidEx)).tasks = [] :=
  ⟨(success_message_autohide_app_only appSuccessText appStateValidEx
      "2026-10-11T12:00:00.000Z" infoStateValidEx rfl rfl rfl rfl rfl).2.2.1,
   (success_message_autohide_app_only appSuccessText appStateValidEx
      "2026-10-11T12:00:00.000Z" infoStateValidEx rfl rfl rfl rfl
      rfl).2.2.2.2⟩

/-- C10: the info-request payload trims leading and trailing whitespace from
firstName, lastName, email, and message, takes interest verbatim; the
application-form data takes every field verbatim — so the two flows log
differently for inputs with surrounding whitespace (e.g. " John "). -/
theorem infoRequest_trims_application_does_not
    (f : InfoFields) (a : AppFields) (now now2 : String) :
    (mkInfoPayload f now).firstName = jsTrim f.riFirstName ∧
    (mkInfoPayload f now).lastName = jsTrim f.riLastName ∧
    (mkInfoPayload f now).email = jsTrim f.riEmail ∧
    (mkInfoPayload f now).message = jsTrim f.riMessage ∧
    (mkInfoPayload f now).interest = f.riInterest ∧
    (mkAppFormData a now2).firstName = a.firstName ∧
    (mkAppFormData a now2).lastName = a.lastName ∧
    (mkAppFormData a now2).email = a.email ∧
    (mkAppFormData a now2).program = a.program ∧
    (mkAppFormData a now2).startDate = a.startDate ∧
    jsTrim " John " = "John" ∧
    " John " ≠ "John" :=
  ⟨rfl, rfl, rfl, rfl, rfl, rfl, rfl, rfl, rfl, rfl, by decide, by decide⟩

end CollegeSite
